import Mathlib

/-!
Shallow embedding of the Stack Lifecycle Orchestration Layer of the
iac-sandbox backend (src/app/backend/src), covering:

* `services/pulumi_service.py`: `get_or_create_stack`, `get_stack_info`,
  `preview_stack`, `up_stack`, `destroy_stack`, `refresh_stack`,
  `get_stack_outputs`, `get_stack_resources`, `delete_stack`;
* `api/stacks.py`: the `preview`, `up`, `destroy` and `refresh` endpoint
  handlers and their result normalization into `DeploymentResult`;
* `models/stack.py`: `DeploymentSummary`, `DeploymentResult`, `StackInfo`;
* `config.py`: the `GCP_PROJECT_ID` / `GCP_REGION` settings consulted when
  seeding default stack configuration.

The external provisioning engine (the Pulumi automation API) is modelled as
an explicit environment value `Engine`: a finite association of stack names
to the responses the engine gives to each call the service layer makes
(configuration, outputs, the four lifecycle results, the exported state),
plus a counter of stack-creation calls.  Python dictionaries become
association lists, exceptions become `Except`, `None` becomes `Option`,
and Python truthiness of optional strings is modelled explicitly.
-/

namespace Iac

/-- Errors raised by the engine adapter: `StackNotFoundError`,
`StackAlreadyExistsError`, and any other command failure with a message. -/
inductive EngineError where
  | stackNotFound
  | stackAlreadyExists
  | commandError (msg : String)
deriving DecidableEq, Repr

/-- The message `str(e)` rendered for an engine error by the API handlers. -/
def engineErrMsg : EngineError → String
  | .stackNotFound => "stack not found"
  | .stackAlreadyExists => "stack already exists"
  | .commandError m => m

/-- Engine preview result: `change_summary` is the dict of per-operation
counts; `none` models an object lacking the `change_summary` attribute
(the code probes it with `hasattr`). -/
structure PreviewResult where
  change_summary : Option (List (String × Nat)) := none
deriving DecidableEq, Repr

/-- The `summary` object of an up/destroy result: `resource_changes` is the
dict of per-operation counts; `none` models a summary object lacking the
`resource_changes` attribute (probed with `hasattr`). -/
structure UpdateSummaryObj where
  resource_changes : Option (List (String × Nat)) := none
deriving DecidableEq, Repr

/-- Engine up (apply) result. -/
structure UpResult where
  summary : UpdateSummaryObj := {}
deriving DecidableEq, Repr

/-- Engine destroy result. -/
structure DestroyResult where
  summary : UpdateSummaryObj := {}
deriving DecidableEq, Repr

/-- Engine refresh result (its contents are discarded by the API layer). -/
structure RefreshResult where
  stdout : String := ""
deriving DecidableEq, Repr

/-- One raw resource dict inside the exported deployment state; every key is
optional, matching the `.get` accesses in `get_stack_resources`. -/
structure RawResource where
  urn : Option String := none
  type : Option String := none
  id : Option String := none
  parent : Option String := none
  dependencies : Option (List String) := none
  outputs : Option (List (String × String)) := none
  inputs : Option (List (String × String)) := none
deriving DecidableEq, Repr

/-- The `deployment` dict of an exported stack state; `resources` may be
absent. -/
structure DeploymentDict where
  resources : Option (List RawResource) := none
deriving DecidableEq, Repr

/-- An exported stack state: `deployment` may be absent/None. -/
structure ExportedState where
  deployment : Option DeploymentDict := none
deriving DecidableEq, Repr

/-- The engine-side record for one stack: its configuration and outputs,
whether the corresponding reads fail, workspace summary data, and the
responses the engine returns to each lifecycle call. -/
structure EngineStack where
  config : List (String × String) := []
  configReadFails : Bool := false
  outputsVals : List (String × String) := []
  outputsReadFails : Bool := false
  resourceCount : Nat := 0
  lastUpdate : Option String := none
  url : Option String := none
  previewRes : Except EngineError PreviewResult := .ok {}
  upRes : Except EngineError UpResult := .ok {}
  destroyRes : Except EngineError DestroyResult := .ok {}
  refreshRes : Except EngineError RefreshResult := .ok {}
  exported : ExportedState := {}
deriving Repr

/-- The engine environment: the workspace's stacks keyed by name, whether
`list_stacks` fails, and how many stack-creation calls have been issued. -/
structure Engine where
  stackList : List (String × EngineStack) := []
  listFails : Bool := false
  creations : Nat := 0
deriving Repr

/-- Look a stack up by name in the engine workspace. -/
def lookupStack (e : Engine) (name : String) : Option EngineStack :=
  (e.stackList.find? (fun p => p.1 == name)).map Prod.snd

/-- `auto.select_stack`: returns the stack or raises `StackNotFoundError`. -/
def select_stack (e : Engine) (name : String) : Except EngineError EngineStack :=
  match lookupStack e name with
  | some s => .ok s
  | none => .error .stackNotFound

/-- `auto.create_stack`: registers a fresh stack (empty configuration, no
resources) and records one creation call; raises if the name exists. -/
def create_stack (e : Engine) (name : String) : Except EngineError Engine :=
  if (lookupStack e name).isSome then
    .error .stackAlreadyExists
  else
    .ok { e with stackList := e.stackList ++ [(name, {})], creations := e.creations + 1 }

/-- `stack.get_all_config()`: the configuration read, which may fail. -/
def stack_get_all_config (s : EngineStack) : Except EngineError (List (String × String)) :=
  if s.configReadFails then .error (.commandError "config read failed") else .ok s.config

/-- `stack.outputs()`: the outputs read, which may fail independently of the
configuration read. -/
def stack_outputs (s : EngineStack) : Except EngineError (List (String × String)) :=
  if s.outputsReadFails then .error (.commandError "outputs read failed") else .ok s.outputsVals

/-- Set one configuration key on an association list, overwriting an
existing entry or appending a new one. -/
def setKey (cfg : List (String × String)) (k v : String) : List (String × String) :=
  if cfg.any (fun p => p.1 == k) then
    cfg.map (fun p => if p.1 == k then (k, v) else p)
  else
    cfg ++ [(k, v)]

/-- Apply a function to the named stack inside the engine workspace. -/
def updateStack (e : Engine) (name : String) (f : EngineStack → EngineStack) : Engine :=
  { e with stackList := e.stackList.map (fun p => if p.1 == name then (p.1, f p.2) else p) }

/-- `stack.set_config(key, ConfigValue(value))` on the named stack. -/
def stack_set_config (e : Engine) (name k v : String) : Engine :=
  updateStack e name (fun s => { s with config := setKey s.config k v })

/-- A workspace stack summary as returned by `ws.list_stacks()`. -/
structure WsStackSummary where
  name : String
  last_update : Option String
  resource_count : Nat
  url : Option String
deriving DecidableEq, Repr

/-- `ws.list_stacks()`: enumerates all stacks, or raises if listing fails. -/
def ws_list_stacks (e : Engine) : Except EngineError (List WsStackSummary) :=
  if e.listFails then
    .error (.commandError "listing failed")
  else
    .ok (e.stackList.map (fun p => ⟨p.1, p.2.lastUpdate, p.2.resourceCount, p.2.url⟩))

/-- Engine workspace stack removal, modelled from the spec's engine
contract (`workspace.removeStack(name) -> success|failure`, rejecting a
stack that still owns resources): raises for an absent stack or a stack
with a nonzero resource count, otherwise removes the entry. -/
def ws_remove_stack (e : Engine) (name : String) : Except EngineError Engine :=
  match lookupStack e name with
  | none => .error .stackNotFound
  | some s =>
      if 0 < s.resourceCount then
        .error (.commandError "stack still has resources")
      else
        .ok { e with stackList := e.stackList.filter (fun p => !(p.1 == name)) }

/-- Python truthiness of an optional string: `None` and `""` are falsy. -/
def truthy : Option String → Bool
  | none => false
  | some s => !(s == "")

/-- Python `a or b` on optional strings. -/
def pyOr (a b : Option String) : Option String :=
  if truthy a then a else b

/-- Process settings consulted by the orchestrator (`config.py`): the
optional GCP project identifier and the region default. -/
structure Settings where
  GCP_PROJECT_ID : Option String := none
  GCP_REGION : String := "us-central1"
deriving Repr

/-- The process environment fallback `os.environ.get("GCP_PROJECT_ID")`. -/
structure Env where
  gcpProjectId : Option String := none
deriving Repr

/-- The default container image seeded for a project,
`f"us-central1-docker.pkg.dev/{gcp_project}/sudoku-repo/sudoku-app:master"`. -/
def appImage (p : String) : String :=
  "us-central1-docker.pkg.dev/" ++ p ++ "/sudoku-repo/sudoku-app:master"

/-- The four `set_config` calls seeding default configuration on a newly
created stack. -/
def seedDefaultConfig (cfg : Settings) (e : Engine) (name p : String) : Engine :=
  let e1 := stack_set_config e name "gcp:project" p
  let e2 := stack_set_config e1 name "iac-sandbox:provider" "gcp"
  let e3 := stack_set_config e2 name "iac-sandbox:region" cfg.GCP_REGION
  stack_set_config e3 name "iac-sandbox:app_image" (appImage p)

/-- `PulumiService.get_or_create_stack`: select the stack; on
`StackNotFoundError` create it and, when a GCP project identifier is
available (settings value or environment variable, Python-truthy), seed the
default configuration.  Returns the engine state and the stack's name. -/
def get_or_create_stack (cfg : Settings) (env : Env) (e : Engine) (name : String) :
    Except EngineError (Engine × String) :=
  match select_stack e name with
  | .ok _ => .ok (e, name)
  | .error .stackNotFound =>
      match create_stack e name with
      | .error err => .error err
      | .ok e1 =>
          let gcp_project := pyOr cfg.GCP_PROJECT_ID env.gcpProjectId
          if truthy gcp_project then
            .ok (seedDefaultConfig cfg e1 name (gcp_project.getD ""), name)
          else
            .ok (e1, name)
  | .error err => .error err

/-- The stack-info dict assembled by `get_stack_info`. -/
structure StackInfo where
  name : String
  config : List (String × String)
  outputs : List (String × String)
  last_update : Option String
  resource_count : Nat
  url : Option String
deriving DecidableEq, Repr

/-- The body of `PulumiService.get_stack_info` up to its exception
handlers: select the stack, read the configuration (failure propagates),
read the outputs (failure tolerated, normalized to the empty mapping), and
cross-reference the workspace listing. -/
def get_stack_info_inner (e : Engine) (name : String) : Except EngineError StackInfo :=
  match select_stack e name with
  | .error err => .error err
  | .ok s =>
      match stack_get_all_config s with
      | .error err => .error err
      | .ok config =>
          let outputs :=
            match stack_outputs s with
            | .ok o => o
            | .error _ => []
          match ws_list_stacks e with
          | .error err => .error err
          | .ok summaries =>
              let summ := summaries.find? (fun t => t.name == name)
              .ok
                { name := name
                  config := config
                  outputs := outputs
                  last_update := match summ with | some t => t.last_update | none => none
                  resource_count := match summ with | some t => t.resource_count | none => 0
                  url := match summ with | some t => t.url | none => none }

/-- `PulumiService.get_stack_info`: the body wrapped in the handlers
`except StackNotFoundError: return None` and `except Exception: return
None`, so every failure yields `none`. -/
def get_stack_info (e : Engine) (name : String) : Option StackInfo :=
  match get_stack_info_inner e name with
  | .ok i => some i
  | .error _ => none

/-- `PulumiService.preview_stack`: select the stack and run the engine
preview; any error propagates. -/
def preview_stack_service (e : Engine) (name : String) : Except EngineError PreviewResult :=
  match select_stack e name with
  | .error err => .error err
  | .ok s => s.previewRes

/-- `PulumiService.up_stack`: select the stack and run the engine up. -/
def up_stack_service (e : Engine) (name : String) : Except EngineError UpResult :=
  match select_stack e name with
  | .error err => .error err
  | .ok s => s.upRes

/-- `PulumiService.destroy_stack`: select the stack and run the engine
destroy. -/
def destroy_stack_service (e : Engine) (name : String) : Except EngineError DestroyResult :=
  match select_stack e name with
  | .error err => .error err
  | .ok s => s.destroyRes

/-- `PulumiService.refresh_stack`: select the stack and run the engine
refresh. -/
def refresh_stack_service (e : Engine) (name : String) : Except EngineError RefreshResult :=
  match select_stack e name with
  | .error err => .error err
  | .ok s => s.refreshRes

/-- `PulumiService.get_stack_outputs`: select the stack and read its
outputs; any error propagates. -/
def get_stack_outputs_service (e : Engine) (name : String) :
    Except EngineError (List (String × String)) :=
  match select_stack e name with
  | .error err => .error err
  | .ok s => stack_outputs s

/-- The resource dict built per exported resource by
`get_stack_resources`. -/
structure ResourceDict where
  urn : Option String
  type : Option String
  id : Option String
  parent : Option String
  dependencies : List String
  properties : List (String × String)
  inputs : List (String × String)
deriving DecidableEq, Repr

/-- The field-by-field mapping applied to each raw exported resource:
`urn/type/id/parent` default to absent, `dependencies` to `[]`,
`outputs` (renamed `properties`) and `inputs` to empty mappings. -/
def toResourceDict (r : RawResource) : ResourceDict :=
  { urn := r.urn
    type := r.type
    id := r.id
    parent := r.parent
    dependencies := r.dependencies.getD []
    properties := r.outputs.getD []
    inputs := r.inputs.getD [] }

/-- `PulumiService.get_stack_resources`: select the stack, export its
state, and map each resource dict; when the deployment or its `resources`
entry is absent, return the empty list. -/
def get_stack_resources (e : Engine) (name : String) :
    Except EngineError (List ResourceDict) :=
  match select_stack e name with
  | .error err => .error err
  | .ok s =>
      match s.exported.deployment with
      | none => .ok []
      | some dep =>
          match dep.resources with
          | none => .ok []
          | some rs => .ok (rs.map toResourceDict)

/-- `PulumiService.delete_stack`: select the stack and remove it from the
workspace; every exception is caught and reported as `false`.  Returns the
success flag and the resulting engine state. -/
def delete_stack (e : Engine) (name : String) : Bool × Engine :=
  match select_stack e name with
  | .error _ => (false, e)
  | .ok _ =>
      match ws_remove_stack e name with
      | .error _ => (false, e)
      | .ok e2 => (true, e2)

/-- `models/stack.py DeploymentSummary`: per-operation resource counts,
each defaulting to 0. -/
structure DeploymentSummary where
  created : Nat := 0
  updated : Nat := 0
  deleted : Nat := 0
  unchanged : Nat := 0
deriving DecidableEq, Repr

/-- `models/stack.py DeploymentResult`: the uniform result shape; `outputs`
defaults to the empty mapping and `error` to absent. -/
structure DeploymentResult where
  deployment_id : String
  stack_name : String
  operation : String
  status : String
  summary : Option DeploymentSummary := none
  outputs : List (String × String) := []
  error : Option String := none
deriving DecidableEq, Repr

/-- The HTTP exception raised by the API handlers on failure. -/
structure HTTPException where
  status_code : Nat
  detail : String
deriving DecidableEq, Repr

/-- The body shape a stack endpoint handler can return: a normalized
deployment result, or a stack-info object (possibly absent). -/
inductive StackApiResponse where
  | deployment (r : DeploymentResult)
  | info (s : Option StackInfo)
deriving DecidableEq, Repr

/-- Python `d.get(k, 0)` on a counts dict. -/
def getOr0 (d : List (String × Nat)) (k : String) : Nat :=
  match d.find? (fun p => p.1 == k) with
  | some p => p.2
  | none => 0

/-- The preview endpoint's summary normalization: each of the four counts
is `result.change_summary.get(key, 0)` when the `change_summary` attribute
exists, else 0. -/
def previewSummary (r : PreviewResult) : DeploymentSummary :=
  { created := match r.change_summary with | some d => getOr0 d "create" | none => 0
    updated := match r.change_summary with | some d => getOr0 d "update" | none => 0
    deleted := match r.change_summary with | some d => getOr0 d "delete" | none => 0
    unchanged := match r.change_summary with | some d => getOr0 d "same" | none => 0 }

/-- The up endpoint's summary normalization: each count is
`result.summary.resource_changes.get(key, 0)` when the `resource_changes`
attribute exists, else 0. -/
def upSummary (r : UpResult) : DeploymentSummary :=
  { created := match r.summary.resource_changes with | some d => getOr0 d "create" | none => 0
    updated := match r.summary.resource_changes with | some d => getOr0 d "update" | none => 0
    deleted := match r.summary.resource_changes with | some d => getOr0 d "delete" | none => 0
    unchanged := match r.summary.resource_changes with | some d => getOr0 d "same" | none => 0 }

/-- The destroy endpoint's summary normalization: only `deleted` is looked
up (`result.summary.resource_changes.get("delete", 0)` when the attribute
exists, else 0); the other three counts take the model defaults. -/
def destroySummary (r : DestroyResult) : DeploymentSummary :=
  { deleted := match r.summary.resource_changes with | some d => getOr0 d "delete" | none => 0 }

/-- `POST /stacks/{name}/preview`: run the service preview and wrap the
result; any exception becomes an HTTP 500. -/
def preview_ep (e : Engine) (name dep_id : String) : Except HTTPException StackApiResponse :=
  match preview_stack_service e name with
  | .error err => .error ⟨500, engineErrMsg err⟩
  | .ok result =>
      .ok (.deployment
        { deployment_id := dep_id
          stack_name := name
          operation := "preview"
          status := "completed"
          summary := some (previewSummary result) })

/-- `POST /stacks/{name}/up`: run the service up, then read outputs with a
bare-except fallback to the empty mapping, and wrap the result; any
exception in the up call becomes an HTTP 500. -/
def deploy_ep (e : Engine) (name dep_id : String) : Except HTTPException StackApiResponse :=
  match up_stack_service e name with
  | .error err => .error ⟨500, engineErrMsg err⟩
  | .ok result =>
      let outputs :=
        match get_stack_outputs_service e name with
        | .ok o => o
        | .error _ => []
      .ok (.deployment
        { deployment_id := dep_id
          stack_name := name
          operation := "up"
          status := "completed"
          summary := some (upSummary result)
          outputs := outputs })

/-- `POST /stacks/{name}/destroy`: run the service destroy and wrap the
result; any exception becomes an HTTP 500. -/
def destroy_ep (e : Engine) (name dep_id : String) : Except HTTPException StackApiResponse :=
  match destroy_stack_service e name with
  | .error err => .error ⟨500, engineErrMsg err⟩
  | .ok result =>
      .ok (.deployment
        { deployment_id := dep_id
          stack_name := name
          operation := "destroy"
          status := "completed"
          summary := some (destroySummary result) })

/-- `POST /stacks/{name}/refresh`: run the service refresh, then return
`get_stack_info` (which never raises); any refresh exception becomes an
HTTP 500.  No `DeploymentResult` is built. -/
def refresh_ep (e : Engine) (name : String) : Except HTTPException StackApiResponse :=
  match refresh_stack_service e name with
  | .error err => .error ⟨500, engineErrMsg err⟩
  | .ok _ => .ok (.info (get_stack_info e name))

/-- The count a heterogeneous engine result yields for a key once
normalized: 0 when the nested counts field is absent, else the dict value
with 0 for a missing key. -/
def countOr0 : Option (List (String × Nat)) → String → Nat
  | none, _ => 0
  | some d, k => getOr0 d k

/-- Spec-side predicate (from the referential-integrity invariant of the
spec): every `parent` entry and every `dependencies` entry of every
resource in the set resolves to the `urn` of a resource in the same set. -/
def danglingFree (rs : List ResourceDict) : Bool :=
  rs.all (fun r =>
    (match r.parent with
     | none => true
     | some p => rs.any (fun q => q.urn == some p)) &&
    r.dependencies.all (fun d => rs.any (fun q => q.urn == some d)))

/-- Whether an endpoint response body is a normalized deployment result. -/
def respIsDeployment : Except HTTPException StackApiResponse → Bool
  | .ok (.deployment _) => true
  | _ => false

/-- An engine workspace with no stacks. -/
def emptyEngine : Engine := {}

/-- A stack whose configuration read fails. -/
def cfgFailStack : EngineStack := { configReadFails := true }

/-- A stack whose outputs read fails while its configuration read
succeeds. -/
def outFailStack : EngineStack :=
  { config := [("iac-sandbox:provider", "gcp")], outputsReadFails := true,
    outputsVals := [("app_url", "https://x")] }

/-- An engine holding one stack with a failing configuration read and one
with a failing outputs read. -/
def readFailEngine : Engine :=
  { stackList := [("cfgfail", cfgFailStack), ("outfail", outFailStack)] }

/-- A stack that still owns two resources. -/
def busyStack : EngineStack := { resourceCount := 2 }

/-- A stack that owns no resources. -/
def idleStack : EngineStack := { resourceCount := 0 }

/-- An engine holding one non-empty and one empty stack. -/
def deletionEngine : Engine :=
  { stackList := [("busy", busyStack), ("idle", idleStack)] }

/-- An exported resource whose dependency list names a URN absent from the
export. -/
def danglingRaw : RawResource :=
  { urn := some "urn:pulumi:dev::app::bucket", type := some "gcp:storage:Bucket",
    dependencies := some ["urn:pulumi:dev::app::missing"] }

/-- A stack whose exported state contains the dangling resource. -/
def danglingStack : EngineStack :=
  { exported := { deployment := some { resources := some [danglingRaw] } } }

/-- An engine holding the stack with the dangling export. -/
def danglingEngine : Engine := { stackList := [("s", danglingStack)] }

/-- A stack on which every engine call succeeds with default results. -/
def demoStack : EngineStack := {}

/-- An engine holding the demo stack. -/
def demoEngine : Engine := { stackList := [("demo", demoStack)] }

/-- An up result reporting two created resources. -/
def upOkRes : UpResult := { summary := { resource_changes := some [("create", 2)] } }

/-- A stack whose up call succeeds but whose outputs read fails. -/
def upOutFailStack : EngineStack := { upRes := .ok upOkRes, outputsReadFails := true }

/-- An engine holding the up-succeeds/outputs-fail stack. -/
def upOutFailEngine : Engine := { stackList := [("dev-alice", upOutFailStack)] }

/-- Settings carrying a GCP project identifier. -/
def projSettings : Settings := { GCP_PROJECT_ID := some "proj-1" }

/-- Settings carrying no GCP project identifier. -/
def noProjSettings : Settings := {}

/-- A process environment without `GCP_PROJECT_ID`. -/
def emptyEnv : Env := {}

/-- A preview result reporting one created resource. -/
def previewOkRes : PreviewResult := { change_summary := some [("create", 1)] }

/-- A stack whose preview succeeds with `previewOkRes`. -/
def previewOkStack : EngineStack := { previewRes := .ok previewOkRes }

/-- An engine holding the preview-succeeds stack. -/
def previewOkEngine : Engine := { stackList := [("s", previewOkStack)] }

/-- The deployment result the preview endpoint produces on `previewOkEngine`. -/
def previewOkResult : DeploymentResult :=
  { deployment_id := "d-10", stack_name := "s", operation := "preview",
    status := "completed", summary := some (previewSummary previewOkRes) }

/-- The engine state after `create_stack` registers a fresh stack. -/
def createdEngine (e : Engine) (name : String) : Engine :=
  { e with stackList := e.stackList ++ [(name, {})], creations := e.creations + 1 }

/-- A destroy result whose counts dict populates all four engine keys. -/
def fullCountsDestroyRes : DestroyResult :=
  ⟨⟨some [("create", 1), ("update", 2), ("delete", 3), ("same", 4)]⟩⟩

/-- Claim C1 (counterexample): the destroy endpoint's normalizer does not
look up `create`, `update` or `same` at all.  A destroy result whose
counts dict maps `same` to 4 and `create` to 1 normalizes to
`unchanged = 0` and `created = 0`, not to 4 and 1 as the claim's
four-key lookup requires for every lifecycle operation. -/
theorem C1_counterexample :
    (destroySummary fullCountsDestroyRes).unchanged = 0 ∧
    (destroySummary fullCountsDestroyRes).created = 0 ∧
    ¬ (destroySummary fullCountsDestroyRes).unchanged = 4 := by
  decide

/-- Claim C1 (amended): the preview and up normalizers look up `create`,
`update`, `delete`, `same` in their operation-specific nested field
(`change_summary`, `summary.resource_changes`) and map them to
`created/updated/deleted/unchanged`, with a missing key normalizing to 0
and a missing nested field normalizing the whole summary to all-zero; the
destroy normalizer looks up only `delete` (with the same missing-key and
missing-field behavior) and fixes the other three counts at 0.  The
refresh endpoint builds no summary at all. -/
theorem C1_normalizer_amended (cs rc rd : Option (List (String × Nat))) :
    previewSummary { change_summary := cs } =
      { created := countOr0 cs "create", updated := countOr0 cs "update",
        deleted := countOr0 cs "delete", unchanged := countOr0 cs "same" } ∧
    upSummary { summary := { resource_changes := rc } } =
      { created := countOr0 rc "create", updated := countOr0 rc "update",
        deleted := countOr0 rc "delete", unchanged := countOr0 rc "same" } ∧
    destroySummary { summary := { resource_changes := rd } } =
      { created := 0, updated := 0, deleted := countOr0 rd "delete", unchanged := 0 } :=
  ⟨by cases cs <;> rfl, by cases rc <;> rfl, by cases rd <;> rfl⟩

/-- Claim C7: for a name absent from the engine, `get_stack_info` returns
the explicit not-found result `none` instead of raising, while the preview
service raises `StackNotFoundError` and the preview endpoint turns it into
an HTTP 500 rejection rather than succeeding. -/
theorem C7_not_found_distinction (e : Engine) (name : String)
    (h : lookupStack e name = none) :
    get_stack_info e name = none ∧
    preview_stack_service e name = .error .stackNotFound ∧
    ∀ dep_id, preview_ep e name dep_id = .error ⟨500, engineErrMsg .stackNotFound⟩ := by
  have hsel : select_stack e name = .error .stackNotFound := by
    simp [select_stack, h]
  refine ⟨?_, ?_, fun dep_id => ?_⟩
  · simp [get_stack_info, get_stack_info_inner, hsel]
  · simp [preview_stack_service, hsel]
  · simp [preview_ep, preview_stack_service, hsel]

/-- Witness for C7 at the never-created name on the empty workspace. -/
theorem C7_witness :
    lookupStack emptyEngine "never-created" = none ∧
    get_stack_info emptyEngine "never-created" = none ∧
    preview_stack_service emptyEngine "never-created" = .error .stackNotFound ∧
    preview_ep emptyEngine "never-created" "d-7" = .error ⟨500, engineErrMsg .stackNotFound⟩ := by
  have h := C7_not_found_distinction emptyEngine "never-created" rfl
  exact ⟨rfl, h.1, h.2.1, h.2.2 "d-7"⟩

/-- Claim C8: when the up call succeeds but the subsequent outputs read
fails, the deploy endpoint still returns a completed deployment result
whose outputs are the empty mapping. -/
theorem C8_outputs_failure_tolerated (e : Engine) (name dep_id : String)
    (s : EngineStack) (r : UpResult)
    (hs : lookupStack e name = some s) (hup : s.upRes = .ok r)
    (hout : s.outputsReadFails = true) :
    deploy_ep e name dep_id = .ok (.deployment
      { deployment_id := dep_id, stack_name := name, operation := "up",
        status := "completed", summary := some (upSummary r), outputs := [] }) := by
  have hsel : select_stack e name = .ok s := by
    simp [select_stack, hs]
  simp [deploy_ep, up_stack_service, get_stack_outputs_service, hsel, hup,
    stack_outputs, hout]

/-- Witness for C8 on the engine whose up succeeds and whose outputs read
fails. -/
theorem C8_witness :
    lookupStack upOutFailEngine "dev-alice" = some upOutFailStack ∧
    upOutFailStack.upRes = .ok upOkRes ∧
    upOutFailStack.outputsReadFails = true ∧
    deploy_ep upOutFailEngine "dev-alice" "d-8" = .ok (.deployment
      { deployment_id := "d-8", stack_name := "dev-alice", operation := "up",
        status := "completed", summary := some (upSummary upOkRes), outputs := [] }) :=
  ⟨rfl, rfl, rfl,
   C8_outputs_failure_tolerated upOutFailEngine "dev-alice" "d-8" upOutFailStack upOkRes
     rfl rfl rfl⟩

/-- Claim C10: any deployment result actually returned by the preview, up
or destroy endpoint has status `"completed"` and no error; the `running`
and `failed` statuses of the contract are never produced, every failure
path raising an HTTP exception instead. -/
theorem C10_completed_no_error (e : Engine) (name dep_id : String) (r : DeploymentResult)
    (h : preview_ep e name dep_id = .ok (.deployment r) ∨
         deploy_ep e name dep_id = .ok (.deployment r) ∨
         destroy_ep e name dep_id = .ok (.deployment r)) :
    r.status = "completed" ∧ r.error = none := by
  rcases h with h | h | h
  · cases hs : preview_stack_service e name with
    | error err => simp [preview_ep, hs] at h
    | ok result =>
        simp [preview_ep, hs] at h
        subst h
        exact ⟨rfl, rfl⟩
  · cases hs : up_stack_service e name with
    | error err => simp [deploy_ep, hs] at h
    | ok result =>
        simp [deploy_ep, hs] at h
        subst h
        exact ⟨rfl, rfl⟩
  · cases hs : destroy_stack_service e name with
    | error err => simp [destroy_ep, hs] at h
    | ok result =>
        simp [destroy_ep, hs] at h
        subst h
        exact ⟨rfl, rfl⟩

/-- Witness for C10 at a successful preview call. -/
theorem C10_witness :
    preview_ep previewOkEngine "s" "d-10" = .ok (.deployment previewOkResult) ∧
    previewOkResult.status = "completed" ∧ previewOkResult.error = none :=
  ⟨rfl, C10_completed_no_error previewOkEngine "s" "d-10" previewOkResult (Or.inl rfl)⟩

/-- Claim C2 (counterexample): on a stack whose configuration read fails,
`get_stack_info` does not propagate an engine error: the catch-all
exception handler converts the failure into the not-found result `none`. -/
theorem C2_counterexample :
    stack_get_all_config cfgFailStack = .error (.commandError "config read failed") ∧
    get_stack_info readFailEngine "cfgfail" = none :=
  ⟨rfl, rfl⟩

/-- Claim C2 (amended): `get_stack_info` tolerates an outputs read failure,
normalizing outputs to the empty mapping, but a configuration read failure
does not propagate either: the catch-all exception handler converts it
into the not-found result `none` instead of raising an engine error. -/
theorem C2_read_failures_amended (e : Engine) (name : String) (s : EngineStack)
    (hs : lookupStack e name = some s) (hlist : e.listFails = false) :
    (s.configReadFails = true → get_stack_info e name = none) ∧
    (s.configReadFails = false → s.outputsReadFails = true →
      ∃ info, get_stack_info e name = some info ∧ info.outputs = []) := by
  have hsel : select_stack e name = .ok s := by
    simp [select_stack, hs]
  constructor
  · intro hc
    simp [get_stack_info, get_stack_info_inner, hsel, stack_get_all_config, hc]
  · intro hc ho
    simp only [get_stack_info, get_stack_info_inner, hsel, stack_get_all_config, hc,
      stack_outputs, ho, ws_list_stacks, hlist, if_false, Bool.false_eq_true, if_true]
    exact ⟨_, rfl, rfl⟩

/-- Witness for C2 on the engine with one failing configuration read and
one failing outputs read. -/
theorem C2_witness :
    (get_stack_info readFailEngine "cfgfail" = none) ∧
    (∃ info, get_stack_info readFailEngine "outfail" = some info ∧ info.outputs = []) :=
  ⟨(C2_read_failures_amended readFailEngine "cfgfail" cfgFailStack rfl rfl).1 rfl,
   (C2_read_failures_amended readFailEngine "outfail" outFailStack rfl rfl).2 rfl rfl⟩

/-- Claim C4: `delete_stack` reports an engine rejection as a `false`
result rather than an exception, and a stack that still owns resources is
never removed: the engine state is unchanged and the stack remains
present. -/
theorem C4_nonempty_never_removed (e : Engine) (name : String) (s : EngineStack)
    (hs : lookupStack e name = some s) (hrc : 0 < s.resourceCount) :
    delete_stack e name = (false, e) ∧
    lookupStack (delete_stack e name).2 name = some s := by
  have hsel : select_stack e name = .ok s := by
    simp [select_stack, hs]
  have hrm : ws_remove_stack e name = .error (.commandError "stack still has resources") := by
    simp [ws_remove_stack, hs, hrc]
  have hd : delete_stack e name = (false, e) := by
    simp [delete_stack, hsel, hrm]
  exact ⟨hd, by rw [hd]; exact hs⟩

/-- Witness for C4 on the engine holding a stack with two resources. -/
theorem C4_witness :
    lookupStack deletionEngine "busy" = some busyStack ∧
    0 < busyStack.resourceCount ∧
    delete_stack deletionEngine "busy" = (false, deletionEngine) ∧
    lookupStack (delete_stack deletionEngine "busy").2 "busy" = some busyStack := by
  have h := C4_nonempty_never_removed deletionEngine "busy" busyStack rfl (by decide)
  exact ⟨rfl, by decide, h.1, h.2⟩

/-- Claim C5 (counterexample): an export containing a dependency on a URN
absent from the set is returned by `get_stack_resources` as a successful,
unflagged result, violating the requirement that dangling references be
surfaced. -/
theorem C5_counterexample :
    get_stack_resources danglingEngine "s" = .ok [toResourceDict danglingRaw] ∧
    danglingFree [toResourceDict danglingRaw] = false :=
  ⟨rfl, rfl⟩

/-- Claim C5 (amended): `get_stack_resources` maps each exported resource
field-for-field and performs no referential-integrity check: any export,
dangling parent or dependency references included, is returned as a
successful result and never flagged. -/
theorem C5_no_integrity_check (e : Engine) (name : String) (s : EngineStack)
    (rs : List RawResource) (hs : lookupStack e name = some s)
    (hx : s.exported.deployment = some ⟨some rs⟩) :
    get_stack_resources e name = .ok (rs.map toResourceDict) := by
  have hsel : select_stack e name = .ok s := by
    simp [select_stack, hs]
  simp [get_stack_resources, hsel, hx]

/-- Witness for C5 on the engine whose export has a dangling dependency. -/
theorem C5_witness :
    lookupStack danglingEngine "s" = some danglingStack ∧
    danglingStack.exported.deployment = some ⟨some [danglingRaw]⟩ ∧
    get_stack_resources danglingEngine "s" = .ok ([danglingRaw].map toResourceDict) :=
  ⟨rfl, rfl, C5_no_integrity_check danglingEngine "s" danglingStack [danglingRaw] rfl rfl⟩

/-- Claim C6 (counterexample): on a stack whose refresh succeeds, the
refresh endpoint returns a stack-info body, not a result in the uniform
DeploymentResult shape with deploymentId, operation, status and summary
fields. -/
theorem C6_counterexample :
    refresh_ep demoEngine "demo" = .ok (.info (get_stack_info demoEngine "demo")) ∧
    respIsDeployment (refresh_ep demoEngine "demo") = false :=
  ⟨rfl, rfl⟩

/-- Claim C6 (amended): `refresh_stack` selects the stack and invokes the
engine's refresh call like the other lifecycle operations, but the engine
result is not normalized into a DeploymentResult: the refresh endpoint
discards it and responds with the stack-info lookup instead. -/
theorem C6_refresh_amended (e : Engine) (name : String) (s : EngineStack)
    (r : RefreshResult) (hs : lookupStack e name = some s)
    (hr : s.refreshRes = .ok r) :
    refresh_stack_service e name = .ok r ∧
    refresh_ep e name = .ok (.info (get_stack_info e name)) ∧
    respIsDeployment (refresh_ep e name) = false := by
  have hsel : select_stack e name = .ok s := by
    simp [select_stack, hs]
  have h1 : refresh_stack_service e name = .ok r := by
    simp [refresh_stack_service, hsel, hr]
  have h2 : refresh_ep e name = .ok (.info (get_stack_info e name)) := by
    simp [refresh_ep, h1]
  exact ⟨h1, h2, by rw [h2]; rfl⟩

/-- Auxiliary: updating the entries keyed `name` commutes with looking the
first `name` entry up. -/
theorem find_map_update (l : List (String × EngineStack)) (name : String)
    (f : EngineStack → EngineStack) :
    (l.map (fun p => if p.1 == name then (p.1, f p.2) else p)).find? (fun p => p.1 == name) =
      (l.find? (fun p => p.1 == name)).map (fun p => (p.1, f p.2)) := by
  induction l with
  | nil => rfl
  | cons hd tl ih =>
      cases h : (hd.1 == name) with
      | true =>
          simp only [List.map_cons, h, if_true, List.find?]
          rfl
      | false =>
          simp only [List.map_cons, h, Bool.false_eq_true, if_false, List.find?]
          exact ih

/-- Auxiliary: appending a `name` entry to a list without one makes it the
entry found for `name`. -/
theorem find_append_absent (l : List (String × EngineStack)) (name : String) (s : EngineStack)
    (h : l.find? (fun p => p.1 == name) = none) :
    (l ++ [(name, s)]).find? (fun p => p.1 == name) = some (name, s) := by
  induction l with
  | nil =>
      simp [List.find?]
  | cons hd tl ih =>
      cases hh : (hd.1 == name) with
      | true =>
          simp [List.find?, hh] at h
      | false =>
          simp only [List.find?, hh] at h
          simp only [List.cons_append, List.find?, hh]
          exact ih h

/-- Auxiliary: self-lookup after `updateStack` sees the updated stack. -/
theorem lookupStack_updateStack_self (e : Engine) (name : String)
    (f : EngineStack → EngineStack) :
    lookupStack (updateStack e name f) name = (lookupStack e name).map f := by
  simp only [lookupStack, updateStack, find_map_update]
  cases e.stackList.find? (fun p => p.1 == name) <;> rfl

/-- Auxiliary: self-lookup after `stack_set_config` sees the stack with the
key set. -/
theorem lookupStack_set_config_self (e : Engine) (name k v : String) :
    lookupStack (stack_set_config e name k v) name =
      (lookupStack e name).map (fun s => { s with config := setKey s.config k v }) :=
  lookupStack_updateStack_self e name _

/-- Auxiliary: the configuration the default seeding leaves on the seeded
stack. -/
theorem lookupStack_seed_config (cfg : Settings) (e : Engine) (name p : String)
    (s : EngineStack) (h : lookupStack e name = some s) :
    (lookupStack (seedDefaultConfig cfg e name p) name).map EngineStack.config =
      some (setKey (setKey (setKey (setKey s.config "gcp:project" p)
        "iac-sandbox:provider" "gcp") "iac-sandbox:region" cfg.GCP_REGION)
        "iac-sandbox:app_image" (appImage p)) := by
  simp [seedDefaultConfig, lookupStack_set_config_self, h]

/-- Auxiliary: seeding preserves presence of the seeded stack. -/
theorem lookupStack_seed_isSome (cfg : Settings) (e : Engine) (name p : String) :
    (lookupStack (seedDefaultConfig cfg e name p) name).isSome =
      (lookupStack e name).isSome := by
  simp only [seedDefaultConfig, lookupStack_set_config_self]
  cases lookupStack e name <;> rfl

/-- Auxiliary: on a workspace lacking the name, `create_stack` succeeds
with `createdEngine`, on which the name now resolves to a fresh stack. -/
theorem create_stack_ok (e : Engine) (name : String) (h : lookupStack e name = none) :
    create_stack e name = .ok (createdEngine e name) ∧
    lookupStack (createdEngine e name) name = some {} := by
  have hfind : e.stackList.find? (fun p => p.1 == name) = none := by
    cases hf : e.stackList.find? (fun p => p.1 == name) with
    | none => rfl
    | some q => simp [lookupStack, hf] at h
  constructor
  · simp [create_stack, h, createdEngine]
  · simp [lookupStack, createdEngine, find_append_absent e.stackList name {} hfind]

/-- Auxiliary: seeding default configuration records no creation call. -/
theorem creations_seed (cfg : Settings) (e : Engine) (name p : String) :
    (seedDefaultConfig cfg e name p).creations = e.creations := rfl

/-- Claim C3: `get_or_create_stack` is idempotent: for every engine state
and name the call succeeds, a second call with the same name also succeeds
with the very same stack and leaves the engine untouched (in particular no
second creation call is recorded), and the two calls together record at
most one creation. -/
theorem C3_idempotent (cfg : Settings) (env : Env) (e : Engine) (name : String) :
    ∃ e1, get_or_create_stack cfg env e name = .ok (e1, name) ∧
          get_or_create_stack cfg env e1 name = .ok (e1, name) ∧
          e1.creations ≤ e.creations + 1 := by
  cases hl : lookupStack e name with
  | some s =>
      have hsel : select_stack e name = .ok s := by
        simp [select_stack, hl]
      exact ⟨e, by simp [get_or_create_stack, hsel], by simp [get_or_create_stack, hsel],
        Nat.le_succ _⟩
  | none =>
      have hsel : select_stack e name = .error .stackNotFound := by
        simp [select_stack, hl]
      obtain ⟨hcreate, hl'⟩ := create_stack_ok e name hl
      cases ht : truthy (pyOr cfg.GCP_PROJECT_ID env.gcpProjectId) with
      | false =>
          refine ⟨createdEngine e name, ?_, ?_, ?_⟩
          · simp [get_or_create_stack, hsel, hcreate, ht]
          · have hsel2 : select_stack (createdEngine e name) name = .ok {} := by
              simp [select_stack, hl']
            simp [get_or_create_stack, hsel2]
          · exact Nat.le_refl _
      | true =>
          have hsome : (lookupStack (seedDefaultConfig cfg (createdEngine e name)
              name ((pyOr cfg.GCP_PROJECT_ID env.gcpProjectId).getD "")) name).isSome = true := by
            rw [lookupStack_seed_isSome, hl']
            rfl
          cases hl2 : lookupStack (seedDefaultConfig cfg (createdEngine e name)
              name ((pyOr cfg.GCP_PROJECT_ID env.gcpProjectId).getD "")) name with
          | none => rw [hl2] at hsome; cases hsome
          | some s2 =>
              have hsel2 : select_stack (seedDefaultConfig cfg (createdEngine e name)
                  name ((pyOr cfg.GCP_PROJECT_ID env.gcpProjectId).getD "")) name = .ok s2 := by
                simp [select_stack, hl2]
              refine ⟨seedDefaultConfig cfg (createdEngine e name)
                name ((pyOr cfg.GCP_PROJECT_ID env.gcpProjectId).getD ""), ?_, ?_, ?_⟩
              · simp [get_or_create_stack, hsel, hcreate, ht]
              · simp [get_or_create_stack, hsel2]
              · rw [creations_seed]
                exact Nat.le_refl _

/-- Claim C9: when `get_or_create_stack` creates a new stack, the default
configuration (gcp:project, provider, region, container image) is seeded
exactly when a Python-truthy GCP project identifier is available from the
settings or the process environment; otherwise the new stack's
configuration is left empty. -/
theorem C9_default_seeding (cfg : Settings) (env : Env) (e : Engine) (name : String)
    (h : lookupStack e name = none) :
    ∃ e1, get_or_create_stack cfg env e name = .ok (e1, name) ∧
      ((truthy (pyOr cfg.GCP_PROJECT_ID env.gcpProjectId) = false ∧
        (lookupStack e1 name).map EngineStack.config = some []) ∨
       (∃ p, pyOr cfg.GCP_PROJECT_ID env.gcpProjectId = some p ∧
        truthy (some p) = true ∧
        (lookupStack e1 name).map EngineStack.config = some
          [("gcp:project", p), ("iac-sandbox:provider", "gcp"),
           ("iac-sandbox:region", cfg.GCP_REGION),
           ("iac-sandbox:app_image", appImage p)])) := by
  have hsel : select_stack e name = .error .stackNotFound := by
    simp [select_stack, h]
  obtain ⟨hcreate, hl'⟩ := create_stack_ok e name h
  cases ht : truthy (pyOr cfg.GCP_PROJECT_ID env.gcpProjectId) with
  | false =>
      refine ⟨createdEngine e name, by simp [get_or_create_stack, hsel, hcreate, ht],
        Or.inl ⟨rfl, ?_⟩⟩
      rw [hl']
      rfl
  | true =>
      cases hp : pyOr cfg.GCP_PROJECT_ID env.gcpProjectId with
      | none => rw [hp] at ht; cases ht
      | some p =>
          refine ⟨seedDefaultConfig cfg (createdEngine e name)
              name ((pyOr cfg.GCP_PROJECT_ID env.gcpProjectId).getD ""),
            by simp [get_or_create_stack, hsel, hcreate, ht],
            Or.inr ⟨p, rfl, by rw [← hp]; exact ht, ?_⟩⟩
          have hconf := lookupStack_seed_config cfg (createdEngine e name)
            name ((pyOr cfg.GCP_PROJECT_ID env.gcpProjectId).getD "") {} hl'
          rw [hp] at hconf
          rw [hp]
          rw [hconf]
          simp [setKey, Option.getD]

/-- Witness for C9 in both regimes: with a configured project the created
stack is seeded, without one it is created with no defaults. -/
theorem C9_witness :
    (∃ e1, get_or_create_stack projSettings emptyEnv emptyEngine "dev-alice" = .ok (e1, "dev-alice") ∧
      ((truthy (pyOr projSettings.GCP_PROJECT_ID emptyEnv.gcpProjectId) = false ∧
        (lookupStack e1 "dev-alice").map EngineStack.config = some []) ∨
       (∃ p, pyOr projSettings.GCP_PROJECT_ID emptyEnv.gcpProjectId = some p ∧
        truthy (some p) = true ∧
        (lookupStack e1 "dev-alice").map EngineStack.config = some
          [("gcp:project", p), ("iac-sandbox:provider", "gcp"),
           ("iac-sandbox:region", projSettings.GCP_REGION),
           ("iac-sandbox:app_image", appImage p)]))) ∧
    (∃ e1, get_or_create_stack noProjSettings emptyEnv emptyEngine "dev-alice" = .ok (e1, "dev-alice") ∧
      ((truthy (pyOr noProjSettings.GCP_PROJECT_ID emptyEnv.gcpProjectId) = false ∧
        (lookupStack e1 "dev-alice").map EngineStack.config = some []) ∨
       (∃ p, pyOr noProjSettings.GCP_PROJECT_ID emptyEnv.gcpProjectId = some p ∧
        truthy (some p) = true ∧
        (lookupStack e1 "dev-alice").map EngineStack.config = some
          [("gcp:project", p), ("iac-sandbox:provider", "gcp"),
           ("iac-sandbox:region", noProjSettings.GCP_REGION),
           ("iac-sandbox:app_image", appImage p)]))) :=
  ⟨C9_default_seeding projSettings emptyEnv emptyEngine "dev-alice" rfl,
   C9_default_seeding noProjSettings emptyEnv emptyEngine "dev-alice" rfl⟩

/-- Witness for C6 on the demo engine. -/
theorem C6_witness :
    lookupStack demoEngine "demo" = some demoStack ∧
    demoStack.refreshRes = .ok {} ∧
    refresh_stack_service demoEngine "demo" = .ok {} ∧
    refresh_ep demoEngine "demo" = .ok (.info (get_stack_info demoEngine "demo")) ∧
    respIsDeployment (refresh_ep demoEngine "demo") = false := by
  have h := C6_refresh_amended demoEngine "demo" demoStack {} rfl rfl
  exact ⟨rfl, rfl, h.1, h.2.1, h.2.2⟩

end Iac
